import Mathlib

/-!
Shallow embedding of the neuland.app front-end code under verification:
the session-authenticated API client (`authenticated-api.js`), the
GraphQL client (`NeulandAPIClient`), the meal-plan rendering logic and
the dashboard events card.

JavaScript values relevant to these functions are modelled by `JSValue`;
JS truthiness by `JSValue.truthy`. The code only ever compares values
with the literals `0` and fixed strings (via `===`), which is modelled
by the Boolean tests `jsIsZero` and `jsIsStr`.
-/

/-- Model of the JavaScript values that flow through the embedded code:
`null`, `undefined`, numbers, strings, booleans, arrays and plain objects. -/
inductive JSValue where
  | null : JSValue
  | undefined : JSValue
  | num : Int → JSValue
  | str : String → JSValue
  | bool : Bool → JSValue
  | arr : List JSValue → JSValue
  | obj : List (String × JSValue) → JSValue

/-- JS truthiness: `null`, `undefined`, `0`, `""` and `false` are falsy;
every array and object (even empty) is truthy. -/
def JSValue.truthy : JSValue → Bool
  | .null => false
  | .undefined => false
  | .num n => n != 0
  | .str s => s != ""
  | .bool b => b
  | .arr _ => true
  | .obj _ => true

/-- JS strict equality `v === 0` with the number literal `0`. -/
def jsIsZero : JSValue → Bool
  | .num n => n == 0
  | _ => false

/-- JS strict equality `v === s` with a string literal `s`. -/
def jsIsStr (v : JSValue) (s : String) : Bool :=
  match v with
  | .str t => t == s
  | _ => false

/-- JS array indexing `v[i]`: element of an array, `undefined` otherwise
or out of bounds. -/
def JSValue.index : JSValue → Nat → JSValue
  | .arr xs, i => xs.getD i .undefined
  | _, _ => .undefined

/-- JS property access `v.k` on the value shapes reachable in the embedded
code: field of an object, `undefined` on any other value. -/
def JSValue.getField : JSValue → String → JSValue
  | .obj fs, k =>
    match fs.find? (fun p => p.1 == k) with
    | some p => p.2
    | none => .undefined
  | _, _ => .undefined

theorem jsIsZero_iff (v : JSValue) : jsIsZero v = true ↔ v = JSValue.num 0 := by
  cases v <;> simp [jsIsZero]

theorem jsIsStr_iff (v : JSValue) (s : String) :
    jsIsStr v s = true ↔ v = JSValue.str s := by
  cases v <;> simp [jsIsStr]

/-- Response delivered by the underlying `this.request` call of the
anonymous API client: a `status` field and a `data` field. -/
structure Response where
  status : JSValue
  data : JSValue

/-- The single error type `APIError(status, data)` into which
`requestAuthenticated` normalizes both legacy encodings. -/
structure APIError where
  status : JSValue
  data : JSValue

/-- Embedding of `AuthenticatedAPIClient.requestAuthenticated`
(authenticated-api.js, lines 86-104), as a function of the response `res`
delivered by the underlying request: old status format (`res.status !== 0`)
throws `APIError(res.status, res.data)`; new status format
(`res.data[0] !== 0`) throws `APIError(res.data[0], res.data[1])`;
otherwise it returns `res.data[1]`. -/
def requestAuthenticated (res : Response) : Except APIError JSValue :=
  if !(jsIsZero res.status) then
    .error ⟨res.status, res.data⟩
  else if !(jsIsZero (res.data.index 0)) then
    .error ⟨res.data.index 0, res.data.index 1⟩
  else
    .ok (res.data.index 1)

/-- C1: `requestAuthenticated` normalizes the two legacy status encodings
into `APIError`: a non-zero `res.status` throws `APIError(res.status,
res.data)`; otherwise a non-zero `res.data[0]` throws
`APIError(res.data[0], res.data[1])`; and it returns `res.data[1]` exactly
when `res.status` and `res.data[0]` are both `0`. -/
theorem requestAuthenticated_normalizes (res : Response) :
    (res.status ≠ JSValue.num 0 →
      requestAuthenticated res = .error ⟨res.status, res.data⟩) ∧
    (res.status = JSValue.num 0 → res.data.index 0 ≠ JSValue.num 0 →
      requestAuthenticated res = .error ⟨res.data.index 0, res.data.index 1⟩) ∧
    (requestAuthenticated res = .ok (res.data.index 1) ↔
      res.status = JSValue.num 0 ∧ res.data.index 0 = JSValue.num 0) := by
  refine ⟨?_, ?_, ?_⟩
  · intro h
    have hz : jsIsZero res.status = false := by
      rw [← Bool.not_eq_true, jsIsZero_iff]; exact h
    simp [requestAuthenticated, hz]
  · intro hs h
    have hzs : jsIsZero res.status = true := (jsIsZero_iff _).mpr hs
    have hzd : jsIsZero (res.data.index 0) = false := by
      rw [← Bool.not_eq_true, jsIsZero_iff]; exact h
    simp [requestAuthenticated, hzs, hzd]
  · constructor
    · intro h
      by_cases hs : res.status = JSValue.num 0
      · by_cases hd : res.data.index 0 = JSValue.num 0
        · exact ⟨hs, hd⟩
        · have hzs : jsIsZero res.status = true := (jsIsZero_iff _).mpr hs
          have hzd : jsIsZero (res.data.index 0) = false := by
            rw [← Bool.not_eq_true, jsIsZero_iff]; exact hd
          simp [requestAuthenticated, hzs, hzd] at h
      · have hz : jsIsZero res.status = false := by
          rw [← Bool.not_eq_true, jsIsZero_iff]; exact hs
        simp [requestAuthenticated, hz] at h
    · rintro ⟨hs, hd⟩
      have hzs : jsIsZero res.status = true := (jsIsZero_iff _).mpr hs
      have hzd : jsIsZero (res.data.index 0) = true := (jsIsZero_iff _).mpr hd
      simp [requestAuthenticated, hzs, hzd]

/-- Witness for C1 at a concrete response in each of the three regimes. -/
theorem requestAuthenticated_normalizes_witness :
    requestAuthenticated ⟨JSValue.num 3, JSValue.str "err"⟩ =
      .error ⟨JSValue.num 3, JSValue.str "err"⟩ ∧
    requestAuthenticated ⟨JSValue.num 0, JSValue.arr [JSValue.num 2, JSValue.str "bad"]⟩ =
      .error ⟨JSValue.num 2, JSValue.str "bad"⟩ ∧
    requestAuthenticated ⟨JSValue.num 0, JSValue.arr [JSValue.num 0, JSValue.str "payload"]⟩ =
      .ok (JSValue.str "payload") := by
  refine ⟨?_, ?_, ?_⟩
  · exact (requestAuthenticated_normalizes ⟨JSValue.num 3, JSValue.str "err"⟩).1
      (by simp)
  · exact (requestAuthenticated_normalizes
      ⟨JSValue.num 0, JSValue.arr [JSValue.num 2, JSValue.str "bad"]⟩).2.1
      rfl (by simp [JSValue.index])
  · exact (requestAuthenticated_normalizes
      ⟨JSValue.num 0, JSValue.arr [JSValue.num 0, JSValue.str "payload"]⟩).2.2.mpr
      ⟨rfl, rfl⟩

/-- Modelled from the spec: the client's response cache, an unbounded
session-scoped key/value store with no expiry policy (the store object is
created in `anonymous-api.js`, which is not among the sources here);
represented as an association list from string keys to values. -/
abbrev Cache := List (String × JSValue)

/-- Lookup in the cache: the stored value, or `undefined` when the key is
absent (as a JS map-like `get` returns). -/
def Cache.get (c : Cache) (k : String) : JSValue :=
  match c.find? (fun p => p.1 == k) with
  | some p => p.2
  | none => .undefined

/-- Store a value in the cache under a key, replacing any existing binding
for that key. -/
def Cache.set (c : Cache) (k : String) (v : JSValue) : Cache :=
  match c with
  | [] => [(k, v)]
  | p :: ps => if p.1 == k then (k, v) :: ps else p :: Cache.set ps k v

/-- Whether a key is present in the cache. -/
def Cache.hasKey (c : Cache) (k : String) : Bool :=
  (c.find? (fun p => p.1 == k)).isSome

theorem Cache.get_cons_pos (x : String × JSValue) (ps : Cache) (k : String)
    (h : x.1 = k) : Cache.get (x :: ps) k = x.2 := by
  simp [Cache.get, List.find?_cons_of_pos, h]

theorem Cache.get_cons_neg (x : String × JSValue) (ps : Cache) (k : String)
    (h : x.1 ≠ k) : Cache.get (x :: ps) k = Cache.get ps k := by
  simp only [Cache.get]
  rw [List.find?_cons_of_neg _ (by simp [h])]

theorem Cache.get_set_self (c : Cache) (k : String) (v : JSValue) :
    Cache.get (Cache.set c k v) k = v := by
  induction c with
  | nil => simp [Cache.set, Cache.get]
  | cons p ps ih =>
    by_cases h : p.1 = k
    · simp only [Cache.set]
      rw [if_pos (by simp [h])]
      exact Cache.get_cons_pos _ _ _ rfl
    · simp only [Cache.set]
      rw [if_neg (by simp [h])]
      rw [Cache.get_cons_neg _ _ _ h]
      exact ih

theorem Cache.get_set_ne (c : Cache) (k k' : String) (v : JSValue) (h : k' ≠ k) :
    Cache.get (Cache.set c k v) k' = Cache.get c k' := by
  induction c with
  | nil =>
    simp only [Cache.set]
    rw [Cache.get_cons_neg _ _ _ (Ne.symm h)]
  | cons p ps ih =>
    by_cases hp : p.1 = k
    · simp only [Cache.set]
      rw [if_pos (by simp [hp])]
      rw [Cache.get_cons_neg _ _ _ (Ne.symm h)]
      rw [Cache.get_cons_neg _ _ _ (hp ▸ Ne.symm h : p.1 ≠ k')]
    · simp only [Cache.set]
      rw [if_neg (by simp [hp])]
      by_cases hp' : p.1 = k'
      · rw [Cache.get_cons_pos _ _ _ hp', Cache.get_cons_pos _ _ _ hp']
      · rw [Cache.get_cons_neg _ _ _ hp', Cache.get_cons_neg _ _ _ hp']
        exact ih

theorem Cache.hasKey_cons_pos (x : String × JSValue) (ps : Cache) (k : String)
    (h : x.1 = k) : Cache.hasKey (x :: ps) k = true := by
  simp [Cache.hasKey, List.find?_cons_of_pos, h]

theorem Cache.hasKey_cons_neg (x : String × JSValue) (ps : Cache) (k : String)
    (h : x.1 ≠ k) : Cache.hasKey (x :: ps) k = Cache.hasKey ps k := by
  simp only [Cache.hasKey]
  rw [List.find?_cons_of_neg _ (by simp [h])]

theorem Cache.hasKey_set (c : Cache) (k k' : String) (v : JSValue)
    (h : Cache.hasKey c k' = true) : Cache.hasKey (Cache.set c k v) k' = true := by
  induction c with
  | nil => simp [Cache.hasKey] at h
  | cons p ps ih =>
    by_cases hp : p.1 = k
    · simp only [Cache.set]
      rw [if_pos (by simp [hp])]
      by_cases hk : k = k'
      · exact Cache.hasKey_cons_pos _ _ _ hk
      · rw [Cache.hasKey_cons_neg _ _ _ (hk : (k, v).1 ≠ k')]
        rw [Cache.hasKey_cons_neg _ _ _ (hp ▸ hk : p.1 ≠ k')] at h
        exact h
    · simp only [Cache.set]
      rw [if_neg (by simp [hp])]
      by_cases hp' : p.1 = k'
      · exact Cache.hasKey_cons_pos _ _ _ hp'
      · rw [Cache.hasKey_cons_neg _ _ _ hp'] at h ⊢
        exact ih h

/-- Embedding of `AuthenticatedAPIClient.requestCached`
(authenticated-api.js, lines 112-122), as a function of the cache state and
of the outcome `req` the underlying `requestAuthenticated` call would
deliver on this invocation. The cached value is consulted with JS
truthiness (`if (cached)`), mirroring the source. Returns the call's
outcome together with the new cache state. -/
def requestCached (cache : Cache) (cacheKey : String)
    (req : Except APIError JSValue) : (Except APIError JSValue) × Cache :=
  let cached := Cache.get cache cacheKey
  if cached.truthy then
    (.ok cached, cache)
  else
    match req with
    | .error e => (.error e, cache)
    | .ok resp => (.ok resp, Cache.set cache cacheKey resp)

/-- C2 (counterexample to the claim as stated): a first call with key `"k"`
completes successfully and returns (and stores) the value `0`, yet a later
call with the same key does not return the stored value: because `0` is
falsy, the cached entry is treated as a miss, the authenticated request is
performed again, and its fresh result `1` is returned and stored. -/
theorem requestCached_falsy_cex :
    requestCached [] "k" (.ok (JSValue.num 0)) =
      (.ok (JSValue.num 0), [("k", JSValue.num 0)]) ∧
    requestCached [("k", JSValue.num 0)] "k" (.ok (JSValue.num 1)) =
      (.ok (JSValue.num 1), [("k", JSValue.num 1)]) :=
  ⟨rfl, rfl⟩

/-- C2 (amended): `requestCached` memoizes successful responses with a
truthy value: if a call with a key completed successfully and returned a
truthy value, every later call with the same key returns that stored value
without performing another authenticated request (the result and the cache
are independent of the later request's outcome); and on a cache miss it
performs the authenticated request and stores the successful result under
the key before returning it. -/
theorem requestCached_memoizes (c : Cache) (k : String)
    (req₁ : Except APIError JSValue) (v : JSValue) (c' : Cache)
    (h : requestCached c k req₁ = (.ok v, c')) (hv : v.truthy = true) :
    (∀ req₂, requestCached c' k req₂ = (.ok v, c')) ∧
    (∀ w, (Cache.get c k).truthy = false →
      requestCached c k (.ok w) = (.ok w, Cache.set c k w)) := by
  constructor
  · intro req₂
    by_cases hc : (Cache.get c k).truthy = true
    · simp only [requestCached, hc, if_pos] at h
      obtain ⟨hv', hc'⟩ := Prod.mk.injEq .. ▸ h
      have hveq : Cache.get c k = v := by
        cases hv' ; rfl
      subst hc'
      simp [requestCached, hveq, hv]
    · have hcf : (Cache.get c k).truthy = false := by
        cases hb : (Cache.get c k).truthy
        · rfl
        · exact absurd hb hc
      simp only [requestCached, hcf] at h
      cases req₁ with
      | error e => simp at h
      | ok resp =>
        simp only [Bool.false_eq_true, if_false] at h
        obtain ⟨hv', hc'⟩ := Prod.mk.injEq .. ▸ h
        have hresp : resp = v := by cases hv' ; rfl
        subst hresp
        subst hc'
        have hget : Cache.get (Cache.set c k resp) k = resp :=
          Cache.get_set_self c k resp
        simp [requestCached, hget, hv]
  · intro w hmiss
    simp [requestCached, hmiss]

/-- Witness for C2 (amended): after a first call stores the truthy value
`"data"` under `"grades"`, a later call with a request that would deliver
`"other"` still returns the stored `"data"` and leaves the cache unchanged. -/
theorem requestCached_memoizes_witness :
    requestCached [("grades", JSValue.str "data")] "grades"
      (.ok (JSValue.str "other")) =
      (.ok (JSValue.str "data"), [("grades", JSValue.str "data")]) ∧
    requestCached [] "grades" (.ok (JSValue.str "data")) =
      (.ok (JSValue.str "data"), [("grades", JSValue.str "data")]) := by
  have h := requestCached_memoizes [] "grades" (.ok (JSValue.str "data"))
    (JSValue.str "data") [("grades", JSValue.str "data")] rfl rfl
  exact ⟨h.1 (.ok (JSValue.str "other")), h.2 (JSValue.str "data") rfl⟩

/-- C9: `requestCached` is atomic on error. When the cache misses (so the
authenticated request really is performed) and that request throws, the
error propagates to the caller and the cache is left unchanged; a later
call with the same key therefore performs the request again, following the
new request's outcome. -/
theorem requestCached_error_atomic (c : Cache) (k : String) (e : APIError)
    (hmiss : (Cache.get c k).truthy = false) :
    requestCached c k (.error e) = (.error e, c) ∧
    (∀ v, requestCached c k (.ok v) = (.ok v, Cache.set c k v)) ∧
    (∀ e', requestCached c k (.error e') = (.error e', c)) := by
  refine ⟨?_, ?_, ?_⟩
  · simp [requestCached, hmiss]
  · intro v; simp [requestCached, hmiss]
  · intro e'; simp [requestCached, hmiss]

/-- Witness for C9 on an empty cache and a concrete `APIError`. -/
theorem requestCached_error_atomic_witness :
    requestCached [] "exams"
      (.error ⟨JSValue.num 470, JSValue.str "boom"⟩) =
      (.error ⟨JSValue.num 470, JSValue.str "boom"⟩, []) :=
  (requestCached_error_atomic [] "exams"
    ⟨JSValue.num 470, JSValue.str "boom"⟩ rfl).1

/-- C5 (counterexample to the claim as stated): the cache entry
`("getMensaPlan", "")` exists, but since its value `""` is falsy,
`requestCached` treats it as a miss and overwrites it with the fresh
response `"plan"`: an existing cache entry does not always remain
associated with its key unchanged. -/
theorem cache_overwrite_cex :
    Cache.get [("getMensaPlan", JSValue.str "")] "getMensaPlan" =
      JSValue.str "" ∧
    (requestCached [("getMensaPlan", JSValue.str "")] "getMensaPlan"
      (.ok (JSValue.str "plan"))).2 =
      [("getMensaPlan", JSValue.str "plan")] :=
  ⟨rfl, rfl⟩

/-- C5 (amended): the cache is an unbounded session-scoped key/value store
with no expiry: no operation of the client ever deletes a cache entry and
the set of cached keys only grows; an entry holding a truthy value is never
overwritten and remains associated with its key unchanged for the remainder
of the session; only an entry holding a falsy value can be overwritten
(it is treated as a miss and replaced by a fresh successful response). -/
theorem cache_entries_persist (c : Cache) (k : String)
    (req : Except APIError JSValue) :
    (∀ k', Cache.hasKey c k' = true →
      Cache.hasKey (requestCached c k req).2 k' = true) ∧
    (∀ k', (Cache.get c k').truthy = true →
      Cache.get (requestCached c k req).2 k' = Cache.get c k') ∧
    (∀ k', k' ≠ k →
      Cache.get (requestCached c k req).2 k' = Cache.get c k') := by
  by_cases hc : (Cache.get c k).truthy = true
  · have heq : (requestCached c k req).2 = c := by simp [requestCached, hc]
    rw [heq]
    exact ⟨fun k' h => h, fun k' _ => rfl, fun k' _ => rfl⟩
  · have hcf : (Cache.get c k).truthy = false := by
      cases hb : (Cache.get c k).truthy
      · rfl
      · exact absurd hb hc
    cases req with
    | error e =>
      have heq : (requestCached c k (.error e)).2 = c := by
        simp [requestCached, hcf]
      rw [heq]
      exact ⟨fun k' h => h, fun k' _ => rfl, fun k' _ => rfl⟩
    | ok resp =>
      have heq : (requestCached c k (.ok resp)).2 = Cache.set c k resp := by
        simp [requestCached, hcf]
      rw [heq]
      refine ⟨fun k' h => Cache.hasKey_set c k k' resp h, ?_, ?_⟩
      · intro k' h
        by_cases hk : k' = k
        · rw [hk] at h
          rw [h] at hcf
          exact absurd hcf (by simp)
        · exact Cache.get_set_ne c k k' resp hk
      · intro k' hk
        exact Cache.get_set_ne c k k' resp hk

/-- Witness for C5 (amended) on a concrete cache with a truthy and an
unrelated entry: a miss on `"getExams"` stores a new entry while the
existing entries survive unchanged. -/
theorem cache_entries_persist_witness :
    Cache.hasKey (requestCached [("getGrades", JSValue.str "g")] "getExams"
      (.ok (JSValue.str "e"))).2 "getGrades" = true ∧
    Cache.get (requestCached [("getGrades", JSValue.str "g")] "getExams"
      (.ok (JSValue.str "e"))).2 "getGrades" = JSValue.str "g" := by
  have h := cache_entries_persist [("getGrades", JSValue.str "g")] "getExams"
    (.ok (JSValue.str "e"))
  exact ⟨h.1 "getGrades" rfl, h.2.1 "getGrades" rfl⟩

/-- Embedding of `AuthenticatedAPIClient.getExams` (authenticated-api.js,
lines 177-198), as a function of the outcome `req` of the underlying
`requestCached` call: a successful result is returned as is; a thrown
error whose `data` is `'No exam data available'` or `'Query not possible'`
is mapped to the empty array; every other error is rethrown unchanged. -/
def getExams (req : Except APIError JSValue) : Except APIError JSValue :=
  match req with
  | .ok res => .ok res
  | .error e =>
    if jsIsStr e.data "No exam data available" ||
        jsIsStr e.data "Query not possible" then
      .ok (.arr [])
    else
      .error e

/-- Embedding of `AuthenticatedAPIClient.getTimetable` (authenticated-api.js,
lines 144-175), as a function of the outcome `req` of the underlying
`requestCached` call: a successful result `res` is wrapped into the object
`{ semester: res[0], holidays: res[1], timetable: res[2] }`; a thrown error
whose `data` is `'Query not possible'` or `'Time table does not exist'` is
mapped to `{ timetable: [] }`; every other error is rethrown unchanged. -/
def getTimetable (req : Except APIError JSValue) : Except APIError JSValue :=
  match req with
  | .ok res =>
    .ok (.obj [("semester", res.index 0), ("holidays", res.index 1),
      ("timetable", res.index 2)])
  | .error e =>
    if jsIsStr e.data "Query not possible" ||
        jsIsStr e.data "Time table does not exist" then
      .ok (.obj [("timetable", .arr [])])
    else
      .error e

/-- C10 (counterexample to the claim as stated): `getExams` also returns the
empty array when the underlying request succeeds with an empty array — so
`[]` is not returned exactly when a matching `APIError` is thrown. -/
theorem getExams_empty_without_error_cex :
    getExams (.ok (JSValue.arr [])) = .ok (JSValue.arr []) :=
  rfl

/-- C10 (amended): `getExams` returns `[]` whenever the request throws an
error whose `data` is `'No exam data available'` or `'Query not possible'`,
and `getTimetable` returns `{ timetable: [] }` whenever the thrown error's
`data` is `'Query not possible'` or `'Time table does not exist'`; in every
other error case the original error is rethrown unchanged. Among throwing
executions these are the only ones mapped to the empty results, but a
successful request is passed through, so a success whose payload is the
empty array also makes `getExams` return `[]`. -/
theorem getExams_getTimetable_error_mapping (e : APIError) (v : JSValue) :
    (e.data = JSValue.str "No exam data available" ∨
      e.data = JSValue.str "Query not possible" →
      getExams (.error e) = .ok (.arr [])) ∧
    (e.data ≠ JSValue.str "No exam data available" →
      e.data ≠ JSValue.str "Query not possible" →
      getExams (.error e) = .error e) ∧
    (getExams (.ok v) = .ok v) ∧
    (e.data = JSValue.str "Query not possible" ∨
      e.data = JSValue.str "Time table does not exist" →
      getTimetable (.error e) = .ok (.obj [("timetable", .arr [])])) ∧
    (e.data ≠ JSValue.str "Query not possible" →
      e.data ≠ JSValue.str "Time table does not exist" →
      getTimetable (.error e) = .error e) ∧
    (getTimetable (.ok v) =
      .ok (.obj [("semester", v.index 0), ("holidays", v.index 1),
        ("timetable", v.index 2)])) := by
  refine ⟨?_, ?_, rfl, ?_, ?_, rfl⟩
  · intro h
    rcases h with h | h <;>
      simp [getExams, (jsIsStr_iff _ _).mpr h]
  · intro h1 h2
    have hb1 : jsIsStr e.data "No exam data available" = false := by
      rw [← Bool.not_eq_true, jsIsStr_iff]; exact h1
    have hb2 : jsIsStr e.data "Query not possible" = false := by
      rw [← Bool.not_eq_true, jsIsStr_iff]; exact h2
    simp [getExams, hb1, hb2]
  · intro h
    rcases h with h | h <;>
      simp [getTimetable, (jsIsStr_iff _ _).mpr h]
  · intro h1 h2
    have hb1 : jsIsStr e.data "Query not possible" = false := by
      rw [← Bool.not_eq_true, jsIsStr_iff]; exact h1
    have hb2 : jsIsStr e.data "Time table does not exist" = false := by
      rw [← Bool.not_eq_true, jsIsStr_iff]; exact h2
    simp [getTimetable, hb1, hb2]

/-- Witness for C10 (amended) at concrete errors and payloads: a matching
error maps to the empty result, a non-matching error is rethrown, and a
successful payload is passed through. -/
theorem getExams_getTimetable_error_mapping_witness :
    getExams (.error ⟨JSValue.num 470, JSValue.str "No exam data available"⟩) =
      .ok (.arr []) ∧
    getExams (.error ⟨JSValue.num 500, JSValue.str "other"⟩) =
      .error ⟨JSValue.num 500, JSValue.str "other"⟩ ∧
    getTimetable (.error ⟨JSValue.num 470, JSValue.str "Query not possible"⟩) =
      .ok (.obj [("timetable", .arr [])]) := by
  refine ⟨?_, ?_, ?_⟩
  · exact (getExams_getTimetable_error_mapping
      ⟨JSValue.num 470, JSValue.str "No exam data available"⟩ JSValue.null).1
      (Or.inl rfl)
  · exact (getExams_getTimetable_error_mapping
      ⟨JSValue.num 500, JSValue.str "other"⟩ JSValue.null).2.1
      (by simp) (by simp)
  · exact (getExams_getTimetable_error_mapping
      ⟨JSValue.num 470, JSValue.str "Query not possible"⟩ JSValue.null).2.2.2.1
      (Or.inl rfl)

/-- Modelled from the repository's data file `course-short-names.json`
(referenced by authenticated-api.js but not among the sources here): each
faculty entry carries a `poKey` string and a list of course short names. -/
structure CourseEntry where
  poKey : String
  courses : List String

/-- The course-short-names table: faculty names (plus a bookkeeping
`_source` key) mapped to their entries, in object-key order. -/
abbrev CourseTable := List (String × CourseEntry)

/-- Lookup `courseShortNames[faculty]`. -/
def facultyEntry (table : CourseTable) (f : String) : Option CourseEntry :=
  (table.find? (fun p => p.1 == f)).map Prod.snd

/-- JS `courseShortNames[faculty].poKey === poKey`, where `poKey` is the
segment extracted from the PO URL (or `undefined` when the URL has no
non-empty segment). An absent faculty key is unreachable here because the
candidate `f` always ranges over the table's keys. -/
def facultyPoKeyMatch (table : CourseTable) (poKey : Option String)
    (f : String) : Bool :=
  match facultyEntry table f, poKey with
  | some e, some s => e.poKey == s
  | _, _ => false

/-- JS `courseShortNames[faculty].courses.includes(shortName)`, with the
strict-equality semantics of `includes`: a non-string `shortName` matches
no course. -/
def facultyCoursesInclude (table : CourseTable) (shortName : JSValue)
    (f : String) : Bool :=
  match facultyEntry table f, shortName with
  | some e, .str s => e.courses.contains s
  | _, _ => false

/-- Embedding of `extractFacultyFromPersonalData` (authenticated-api.js,
lines 21-53). Returns `.error ()` for the TypeError the source raises when
it reaches `data.persdata.po_url.split('/')` with a value that is not a
string (in particular `undefined`); otherwise `.ok` of the JS return value:
`null` from the guard, the matched faculty name, or `undefined` when no
faculty matches. -/
def extractFacultyFromPersonalData (courseShortNames : CourseTable)
    (data : JSValue) : Except Unit JSValue :=
  let persdata := data.getField "persdata"
  if !data.truthy || !persdata.truthy ||
      (!(persdata.getField "stg").truthy &&
        !(persdata.getField "po_url").truthy) then
    .ok .null
  else
    let faculties :=
      (courseShortNames.map Prod.fst).filter (fun k => k != "_source")
    match persdata.getField "po_url" with
    | .str u =>
      let parts := (u.splitOn "/").filter (fun x => x.length > 0)
      let sliced := parts.drop (parts.length - 3)
      let poKey := sliced.head?
      let facultyMatch := (faculties.filter (fun k => k != "_source")).find?
        (fun f => facultyPoKeyMatch courseShortNames poKey f)
      let shortName := persdata.getField "stg"
      let fallback : JSValue :=
        match faculties.find?
            (fun f => facultyCoursesInclude courseShortNames shortName f) with
        | some f => .str f
        | none => .undefined
      match facultyMatch with
      | some f => if f == "" then .ok fallback else .ok (.str f)
      | none => .ok fallback
    | _ => .error ()

/-- C3 (counterexample to the claim as stated): on the payload
`{ persdata: { stg: 'CS' } }` — a truthy `stg` but no `po_url` — the guard
does not trigger (it only returns `null` when both fields are missing), and
the source then evaluates `data.persdata.po_url.split('/')` on `undefined`,
raising a TypeError instead of returning a faculty or `null`/`undefined`. -/
theorem extractFaculty_throw_cex :
    extractFacultyFromPersonalData [("Informatik", ⟨"06", ["CS"]⟩)]
      (.obj [("persdata", .obj [("stg", JSValue.str "CS")])]) = .error () :=
  rfl

theorem mem_faculties_of_mem {table : CourseTable} {f : String}
    (h : f ∈ (table.map Prod.fst).filter (fun k => k != "_source")) :
    f ∈ table.map Prod.fst ∧ f ≠ "_source" := by
  rw [List.mem_filter] at h
  refine ⟨h.1, ?_⟩
  simpa using h.2

/-- C3 (amended): the faculty-extraction helper returns either `null` (when
the guard rejects the payload), `undefined` (when no faculty matches), or a
faculty name that is a key of the course-short-names table other than
`_source`; and it never raises an error on any input whose
`persdata.po_url` is a string. It does, however, raise a TypeError when the
guard passes with a `persdata.po_url` that is not a string (e.g. a truthy
`stg` with `po_url` absent). -/
theorem extractFaculty_shape_and_totality (table : CourseTable)
    (data : JSValue) :
    (∀ v, extractFacultyFromPersonalData table data = .ok v →
      v = .null ∨ v = .undefined ∨
      ∃ f, v = .str f ∧ f ∈ table.map Prod.fst ∧ f ≠ "_source") ∧
    ((∃ s, (data.getField "persdata").getField "po_url" = .str s) →
      ∃ v, extractFacultyFromPersonalData table data = .ok v) := by
  constructor
  · intro v hv
    simp only [extractFacultyFromPersonalData] at hv
    split at hv
    · cases hv
      exact Or.inl rfl
    · split at hv
      case _ u hu =>
        split at hv
        case _ f hfind =>
          split at hv
          · -- facultyMatch found but its name is falsy: fall back
            split at hv
            case _ f' hfind' =>
              cases hv
              have hm := mem_faculties_of_mem (List.mem_of_find?_eq_some hfind')
              exact Or.inr (Or.inr ⟨f', rfl, hm.1, hm.2⟩)
            case _ =>
              cases hv
              exact Or.inr (Or.inl rfl)
          · cases hv
            have hmem := List.mem_of_find?_eq_some hfind
            rw [List.mem_filter] at hmem
            have hm := mem_faculties_of_mem hmem.1
            exact Or.inr (Or.inr ⟨f, rfl, hm.1, hm.2⟩)
        case _ hfind =>
          split at hv
          case _ f' hfind' =>
            cases hv
            have hm := mem_faculties_of_mem (List.mem_of_find?_eq_some hfind')
            exact Or.inr (Or.inr ⟨f', rfl, hm.1, hm.2⟩)
          case _ =>
            cases hv
            exact Or.inr (Or.inl rfl)
      case _ =>
        exact absurd hv (by simp)
  · rintro ⟨s, hs⟩
    simp only [extractFacultyFromPersonalData]
    split
    · exact ⟨.null, rfl⟩
    · rw [hs]
      repeat' split
      all_goals exact ⟨_, rfl⟩

/-- Witness for C3 (amended): the shape clause applied to the payload
`null` (where the helper returns `null`), and the totality clause applied
to a payload whose `po_url` is the string `'a/06/b/c'`. -/
theorem extractFaculty_shape_and_totality_witness :
    (JSValue.null = JSValue.null ∨ JSValue.null = JSValue.undefined ∨
      ∃ f, JSValue.null = JSValue.str f ∧
        f ∈ ([("Informatik", ⟨"06", ["CS"]⟩)] : CourseTable).map Prod.fst ∧
        f ≠ "_source") ∧
    (∃ v, extractFacultyFromPersonalData [("Informatik", ⟨"06", ["CS"]⟩)]
      (.obj [("persdata", .obj [("stg", JSValue.str "CS"),
        ("po_url", JSValue.str "a/06/b/c")])]) = .ok v) := by
  constructor
  · exact (extractFaculty_shape_and_totality
      [("Informatik", ⟨"06", ["CS"]⟩)] JSValue.null).1 JSValue.null rfl
  · exact (extractFaculty_shape_and_totality [("Informatik", ⟨"06", ["CS"]⟩)]
      (.obj [("persdata", .obj [("stg", JSValue.str "CS"),
        ("po_url", JSValue.str "a/06/b/c")])])).2 ⟨"a/06/b/c", rfl⟩

/-- Meal record as consulted by the meal-plan filter predicates: the
allergen and flag lists may be absent (`null` in the data). -/
structure FilterMeal where
  allergens : Option (List String)
  flags : Option (List String)

/-- Modelled from the spec: the allergen matching predicate
`containsSelectedAllergen` of lib/food-utils (not among the sources here) —
whether any of the meal's allergens is in the user's selected-allergen set;
an absent allergen list matches nothing. -/
def containsSelectedAllergen (allergens : Option (List String))
    (allergenSelection : List String) : Bool :=
  match allergens with
  | none => false
  | some xs => xs.any (fun x => allergenSelection.contains x)

/-- Modelled from the spec: the preference matching predicate
`containsSelectedPreference` of lib/food-utils (not among the sources
here) — whether any of the meal's flags is in the user's
selected-preference set; an absent flag list matches nothing. -/
def containsSelectedPreference (flags : Option (List String))
    (preferencesSelection : List String) : Bool :=
  match flags with
  | none => false
  | some xs => xs.any (fun x => preferencesSelection.contains x)

/-- Embedding of `showMatch` from the Mensa page (part_001, lines 145-151):
`(!containsSelectedAllergen && containsSelectedPreference) ||
containsSelectedAllergen`. -/
def showMatch (allergenSelection preferencesSelection : List String)
    (meal : FilterMeal) : Bool :=
  (!(containsSelectedAllergen meal.allergens allergenSelection) &&
    containsSelectedPreference meal.flags preferencesSelection) ||
  containsSelectedAllergen meal.allergens allergenSelection

/-- C4: `showMatch` is equivalent to the plain disjunction of the two
matching predicates: for every meal, selected-allergen set and
selected-preference set, `showMatch(meal)` is true if and only if
`containsSelectedAllergen(meal.allergens, allergenSelection)` is true or
`containsSelectedPreference(meal.flags, preferencesSelection)` is true. -/
theorem showMatch_iff_disjunction (allergenSelection preferencesSelection :
    List String) (meal : FilterMeal) :
    showMatch allergenSelection preferencesSelection meal = true ↔
      (containsSelectedAllergen meal.allergens allergenSelection = true ∨
        containsSelectedPreference meal.flags preferencesSelection = true) := by
  cases hA : containsSelectedAllergen meal.allergens allergenSelection <;>
    cases hP : containsSelectedPreference meal.flags preferencesSelection <;>
      simp [showMatch, hA, hP]

/-- Whether `sub` occurs as a contiguous run inside the character list. -/
def hasSubstring (sub : List Char) : List Char → Bool
  | [] => sub.isEmpty
  | c :: rest => sub.isPrefixOf (c :: rest) || hasSubstring sub rest

/-- JS `String.prototype.includes`: substring containment. -/
def jsIncludes (s sub : String) : Bool :=
  hasSubstring sub.toList s.toList

/-- Meal record as consulted by `renderMealDay`: its restaurant tag and its
category string. -/
structure Meal where
  restaurant : String
  category : String
deriving DecidableEq, Repr

/-- The sub-lists `renderMealDay` (part_001, lines 225-361) renders for one
day of the meal plan, together with the `noData` flag that controls the
no-data message. -/
structure MealDayLists where
  mensaFood : List Meal
  mensaSoups : List Meal
  neuburgFood : List Meal
  reimannsFood : List Meal
  reimannsSalad : List Meal
  canisiusFood : List Meal
  canisiusSalads : List Meal
  noData : Bool
deriving DecidableEq, Repr

/-- Embedding of the filtering logic of `renderMealDay` (part_001, lines
225-245): the day's meals are grouped by restaurant, the Mensa Ingolstadt
group is split by whether the category contains 'soup', the Reimanns and
Canisius groups by whether it contains 'salad'; the Neuburg group only
gets its non-soup list; `noData` is set when all four restaurant groups
are empty. -/
def renderMealDay (meals : List Meal) : MealDayLists :=
  let mensa := meals.filter (fun x => x.restaurant == "IngolstadtMensa")
  let mensaSoups := mensa.filter (fun x => jsIncludes x.category "soup")
  let mensaFood := mensa.filter (fun x => !(jsIncludes x.category "soup"))
  let neuburg := meals.filter (fun x => x.restaurant == "NeuburgMensa")
  let neuburgFood := neuburg.filter (fun x => !(jsIncludes x.category "soup"))
  let reimanns := meals.filter (fun x => x.restaurant == "Reimanns")
  let reimannsFood := reimanns.filter (fun x => !(jsIncludes x.category "salad"))
  let reimannsSalad := reimanns.filter (fun x => jsIncludes x.category "salad")
  let canisius := meals.filter (fun x => x.restaurant == "Canisius")
  let canisiusSalads := canisius.filter (fun x => jsIncludes x.category "salad")
  let canisiusFood := canisius.filter (fun x => !(jsIncludes x.category "salad"))
  let noData := mensa.length == 0 && reimanns.length == 0 &&
    canisius.length == 0 && neuburg.length == 0
  ⟨mensaFood, mensaSoups, neuburgFood, reimannsFood, reimannsSalad,
    canisiusFood, canisiusSalads, noData⟩

/-- C7 (counterexample to the claim as stated): a day consisting of one
NeuburgMensa meal whose category contains 'soup' produces no entry in any
of the seven rendered sub-lists — there is no Neuburg soup list — even
though the meal's restaurant is one of the four; and, the day not being
empty, the no-data message is not shown either. -/
theorem renderMealDay_neuburg_soup_cex :
    renderMealDay [⟨"NeuburgMensa", "soup"⟩] =
      ⟨[], [], [], [], [], [], [], false⟩ := by
  rfl

/-- C7 (amended): `renderMealDay` partitions each day's meals by
restaurant and kind: an IngolstadtMensa meal lands in exactly one of the
two Mensa lists (split by whether its category contains 'soup'), a
Reimanns or Canisius meal in exactly one of that restaurant's two lists
(split by 'salad'), while a NeuburgMensa meal is listed only when its
category does not contain 'soup' (Neuburg soup meals appear in no list);
a meal with any other restaurant value appears in no list; and the
no-data message is shown exactly when the day has no meal of any of the
four restaurants. -/
theorem renderMealDay_partition (meals : List Meal) (m : Meal) :
    (m ∈ (renderMealDay meals).mensaFood ↔
      m ∈ meals ∧ m.restaurant = "IngolstadtMensa" ∧
        jsIncludes m.category "soup" = false) ∧
    (m ∈ (renderMealDay meals).mensaSoups ↔
      m ∈ meals ∧ m.restaurant = "IngolstadtMensa" ∧
        jsIncludes m.category "soup" = true) ∧
    (m ∈ (renderMealDay meals).neuburgFood ↔
      m ∈ meals ∧ m.restaurant = "NeuburgMensa" ∧
        jsIncludes m.category "soup" = false) ∧
    (m ∈ (renderMealDay meals).reimannsFood ↔
      m ∈ meals ∧ m.restaurant = "Reimanns" ∧
        jsIncludes m.category "salad" = false) ∧
    (m ∈ (renderMealDay meals).reimannsSalad ↔
      m ∈ meals ∧ m.restaurant = "Reimanns" ∧
        jsIncludes m.category "salad" = true) ∧
    (m ∈ (renderMealDay meals).canisiusFood ↔
      m ∈ meals ∧ m.restaurant = "Canisius" ∧
        jsIncludes m.category "salad" = false) ∧
    (m ∈ (renderMealDay meals).canisiusSalads ↔
      m ∈ meals ∧ m.restaurant = "Canisius" ∧
        jsIncludes m.category "salad" = true) ∧
    ((renderMealDay meals).noData = true ↔
      ∀ x ∈ meals, x.restaurant ≠ "IngolstadtMensa" ∧
        x.restaurant ≠ "NeuburgMensa" ∧ x.restaurant ≠ "Reimanns" ∧
        x.restaurant ≠ "Canisius") := by
  refine ⟨?_, ?_, ?_, ?_, ?_, ?_, ?_, ?_⟩
  all_goals simp only [renderMealDay, List.mem_filter, List.length_eq_zero,
    List.filter_eq_nil_iff, Bool.and_eq_true, beq_iff_eq, Bool.not_eq_true']
  · tauto
  · tauto
  · tauto
  · tauto
  · tauto
  · tauto
  · tauto
  · constructor
    · rintro ⟨⟨⟨h1, h2⟩, h3⟩, h4⟩ x hx
      exact ⟨fun he => h1 x hx (by simp [he]), fun he => h4 x hx (by simp [he]),
        fun he => h2 x hx (by simp [he]), fun he => h3 x hx (by simp [he])⟩
    · intro h
      refine ⟨⟨⟨?_, ?_⟩, ?_⟩, ?_⟩ <;> intro x hx <;> simp [(h x hx).1,
        (h x hx).2.1, (h x hx).2.2.1, (h x hx).2.2.2]

/-- Campus Life event as delivered by `getCampusLifeEvents`. -/
structure CLEvent where
  id : String
  organizer : String
  title : String
deriving DecidableEq, Repr

/-- One rendered entry of the dashboard events card: the event's title and
its organizer line. -/
structure EventListItem where
  title : String
  organizer : String
deriving DecidableEq, Repr

/-- Embedding of the list rendered by `EventsCard` (part_000, lines 40-49):
`calendar.slice(0, 2)` mapped to a list item showing the event's title and
organizer. -/
def renderEventsCard (calendar : List CLEvent) : List EventListItem :=
  (calendar.take 2).map (fun x => ⟨x.title, x.organizer⟩)

/-- C8: the dashboard events card shows at most the first two Campus Life
events: for every list of events, the card renders its first
`min 2 length` entries in their original order, each with its title and
organizer, and nothing else. -/
theorem eventsCard_first_two (calendar : List CLEvent) :
    (renderEventsCard calendar).length = min 2 calendar.length ∧
    ∀ i : Nat, (renderEventsCard calendar)[i]? =
      if i < 2 then (calendar[i]?).map (fun x => ⟨x.title, x.organizer⟩)
      else none := by
  constructor
  · simp [renderEventsCard, List.length_take]
  · intro i
    simp only [renderEventsCard, List.getElem?_map, List.getElem?_take,
      apply_ite (Option.map (fun x : CLEvent => (⟨x.title, x.organizer⟩ :
        EventListItem)))]
    simp

/-- The parameterized GraphQL queries of `NeulandAPIClient` (part_002):
each constructor stands for one of the client's fixed query templates,
carrying its parameters. -/
inductive GraphQLQuery where
  | food (locations : List String)
  | bus (station : String)
  | train (station : String)
  | parking
  | charging
  | clEvents
deriving DecidableEq, Repr

/-- The GraphQL endpoint: the configured environment variable when it is a
truthy (non-empty) string, the public default otherwise (JS `||`). -/
def GRAPHQL_ENDPOINT (env : Option String) : String :=
  match env with
  | some s => if s == "" then "https://api.neuland.app/graphql" else s
  | none => "https://api.neuland.app/graphql"

/-- Log of the request attempts issued against the network: endpoint and
query of each attempt, in order. -/
abbrev RequestLog := List (String × GraphQLQuery)

/-- Embedding of `NeulandAPIClient.performGraphQLQuery` (part_002, lines
7-15), with the network modelled by an `oracle` giving the outcome of a
request and a log recording every attempt issued: the function issues one
request against the endpoint; on success it returns the response data, on
failure it throws `Error('GraphQL query failed')`. -/
def performGraphQLQuery (env : Option String)
    (oracle : String → GraphQLQuery → Except JSValue JSValue)
    (query : GraphQLQuery) (log : RequestLog) :
    (Except String JSValue) × RequestLog :=
  let endpoint := GRAPHQL_ENDPOINT env
  let log' := log ++ [(endpoint, query)]
  match oracle endpoint query with
  | .ok data => (.ok data, log')
  | .error _ => (.error "GraphQL query failed", log')

/-- Embedding of `NeulandAPIClient.getFoodPlan`. -/
def getFoodPlan (env : Option String)
    (oracle : String → GraphQLQuery → Except JSValue JSValue)
    (locations : List String) (log : RequestLog) :
    (Except String JSValue) × RequestLog :=
  performGraphQLQuery env oracle (.food locations) log

/-- Embedding of `NeulandAPIClient.getBusPlan`. -/
def getBusPlan (env : Option String)
    (oracle : String → GraphQLQuery → Except JSValue JSValue)
    (station : String) (log : RequestLog) :
    (Except String JSValue) × RequestLog :=
  performGraphQLQuery env oracle (.bus station) log

/-- Embedding of `NeulandAPIClient.getTrainPlan`. -/
def getTrainPlan (env : Option String)
    (oracle : String → GraphQLQuery → Except JSValue JSValue)
    (station : String) (log : RequestLog) :
    (Except String JSValue) × RequestLog :=
  performGraphQLQuery env oracle (.train station) log

/-- Embedding of `NeulandAPIClient.getParkingData`. -/
def getParkingData (env : Option String)
    (oracle : String → GraphQLQuery → Except JSValue JSValue)
    (log : RequestLog) : (Except String JSValue) × RequestLog :=
  performGraphQLQuery env oracle .parking log

/-- Embedding of `NeulandAPIClient.getCharingStationData`. -/
def getCharingStationData (env : Option String)
    (oracle : String → GraphQLQuery → Except JSValue JSValue)
    (log : RequestLog) : (Except String JSValue) × RequestLog :=
  performGraphQLQuery env oracle .charging log

/-- Embedding of `NeulandAPIClient.getCampusLifeEvents`. -/
def getCampusLifeEvents (env : Option String)
    (oracle : String → GraphQLQuery → Except JSValue JSValue)
    (log : RequestLog) : (Except String JSValue) × RequestLog :=
  performGraphQLQuery env oracle .clEvents log

/-- C6: the GraphQL client performs no caching and no retries: every call
to `performGraphQLQuery` (and so to each query method) appends exactly one
request attempt against the single endpoint to the log — repeated
identical calls each append a fresh attempt — the response data is
returned exactly when the single attempt succeeds, and when the one
attempt fails the call throws `'GraphQL query failed'` without retrying. -/
theorem performGraphQLQuery_single_attempt (env : Option String)
    (oracle : String → GraphQLQuery → Except JSValue JSValue)
    (query : GraphQLQuery) (log : RequestLog) :
    ((performGraphQLQuery env oracle query log).2 =
      log ++ [(GRAPHQL_ENDPOINT env, query)]) ∧
    (∀ d, (performGraphQLQuery env oracle query log).1 = .ok d ↔
      oracle (GRAPHQL_ENDPOINT env) query = .ok d) ∧
    (∀ e, oracle (GRAPHQL_ENDPOINT env) query = .error e →
      (performGraphQLQuery env oracle query log).1 =
        .error "GraphQL query failed") ∧
    ((performGraphQLQuery env oracle query
        (performGraphQLQuery env oracle query log).2).2 =
      log ++ [(GRAPHQL_ENDPOINT env, query), (GRAPHQL_ENDPOINT env, query)]) ∧
    ((getCampusLifeEvents env oracle log).2 =
      log ++ [(GRAPHQL_ENDPOINT env, .clEvents)]) ∧
    (∀ locations, (getFoodPlan env oracle locations log).2 =
      log ++ [(GRAPHQL_ENDPOINT env, .food locations)]) ∧
    (∀ station, (getBusPlan env oracle station log).2 =
      log ++ [(GRAPHQL_ENDPOINT env, .bus station)]) ∧
    (∀ station, (getTrainPlan env oracle station log).2 =
      log ++ [(GRAPHQL_ENDPOINT env, .train station)]) ∧
    ((getParkingData env oracle log).2 =
      log ++ [(GRAPHQL_ENDPOINT env, .parking)]) ∧
    ((getCharingStationData env oracle log).2 =
      log ++ [(GRAPHQL_ENDPOINT env, .charging)]) := by
  have hlog : ∀ q l, (performGraphQLQuery env oracle q l).2 =
      l ++ [(GRAPHQL_ENDPOINT env, q)] := by
    intro q l
    cases h : oracle (GRAPHQL_ENDPOINT env) q <;>
      simp [performGraphQLQuery, h]
  refine ⟨hlog query log, ?_, ?_, ?_, ?_, ?_, ?_, ?_, ?_, ?_⟩
  · intro d
    cases h : oracle (GRAPHQL_ENDPOINT env) query <;>
      simp [performGraphQLQuery, h]
  · intro e h
    simp [performGraphQLQuery, h]
  · rw [hlog query ((performGraphQLQuery env oracle query log).2),
      hlog query log, List.append_assoc]
    rfl
  · exact hlog .clEvents log
  · intro locations
    exact hlog (.food locations) log
  · intro station
    exact hlog (.bus station) log
  · intro station
    exact hlog (.train station) log
  · exact hlog .parking log
  · exact hlog .charging log

/-- Witness for C6 at a concrete oracle: a failing attempt throws the fixed
error message, a successful attempt returns the data, and a call appends
one log entry for the default endpoint. -/
theorem performGraphQLQuery_single_attempt_witness :
    (performGraphQLQuery none (fun _ _ => .error JSValue.null) .clEvents
      []).1 = .error "GraphQL query failed" ∧
    ((performGraphQLQuery none (fun _ _ => .ok (JSValue.num 7)) .parking
      []).1 = .ok (JSValue.num 7)) ∧
    (performGraphQLQuery none (fun _ _ => .error JSValue.null) .clEvents
      []).2 = [("https://api.neuland.app/graphql", .clEvents)] := by
  refine ⟨?_, ?_, ?_⟩
  · exact (performGraphQLQuery_single_attempt none
      (fun _ _ => .error JSValue.null) .clEvents []).2.2.1 JSValue.null rfl
  · exact (performGraphQLQuery_single_attempt none
      (fun _ _ => .ok (JSValue.num 7)) .parking []).2.1 (JSValue.num 7)
      |>.mpr rfl
  · exact (performGraphQLQuery_single_attempt none
      (fun _ _ => .error JSValue.null) .clEvents []).1
